import Mathlib

/-!
Shallow embedding of the bdougie/vision frame-analysis core, translated from
the Go sources: the file-backed result store (internal/storage/storage.go),
the frame-analysis worker pipeline (internal/analyzer/analyzer.go), the
embedding service (internal/embeddings/embeddings.go) and the PostgreSQL
backend with its search layer (the storage package's Postgres file).
External collaborators (the vision model, the embedding computation, the
pgvector distance operator, the filesystem and the database engine) are
abstracted as explicit oracle parameters; everything this core itself
computes is embedded as executable Lean definitions.
-/

namespace Vision

/-- `models.AnalysisResult` (internal/models/models.go): one frame's analysis,
the frame's file name plus the model's textual description. -/
structure AnalysisResult where
  frame : String
  content : String
deriving DecidableEq, Repr

/-- `models.WorkItem` (internal/models/models.go): a frame queued for analysis,
with its 1-based ordinal and the total frame count. -/
structure WorkItem where
  framePath : String
  frameNum : Nat
  total : Nat
deriving DecidableEq, Repr

/-- `models.FrameSearchResult` (internal/models/models.go): one row returned by
either search mode. The float64 similarity is modelled as a rational. -/
structure FrameSearchResult where
  frameNumber : Nat
  framePath : String
  description : String
  similarity : Rat
deriving DecidableEq, Repr

namespace FileBackend

/-- `batchSize` (internal/storage/storage.go line 13). -/
def batchSize : Nat := 10

/-- State of the file-backend `Storage` (internal/storage/storage.go): the
in-memory buffer `results` and the persisted collection held by
`analysis_results.json`, modelled as the list `file` (a missing or unreadable
file reads as the empty list, exactly as `flush` treats it). -/
structure Storage where
  results : List AnalysisResult
  file : List AnalysisResult
deriving DecidableEq, Repr

/-- `flush` (storage.go lines 54–88), success path: an empty buffer is a no-op;
otherwise read the existing persisted collection, append the buffer to it,
write the whole collection back and clear the buffer. -/
def Storage.flush (s : Storage) : Storage :=
  if s.results = [] then s
  else { results := [], file := s.file ++ s.results }

/-- `AddResult` (storage.go lines 32–44), success path: append the result to
the buffer, then flush when the buffer has reached `batchSize`. The Boolean
records whether this call triggered the implicit flush. -/
def Storage.AddResult (s : Storage) (r : AnalysisResult) : Storage × Bool :=
  let s1 : Storage := { s with results := s.results ++ [r] }
  if batchSize ≤ s1.results.length then (s1.flush, true) else (s1, false)

/-- One filesystem operation issued by the store, as seen at the `os` API. -/
inductive FsOp where
  | readF (path : String)
  | mkdirAll (dir : String)
  | createF (path : String)
  | writeF (path : String)
  | renameF (src dst : String)
deriving DecidableEq, Repr

/-- The sequence of filesystem operations the body of `flush` (storage.go
lines 54–88) performs against `resultsFilePath`, given whether the parent
directory `dirPath` already exists: `os.ReadFile`, conditionally
`os.MkdirAll`, then `os.Create` on the results file itself followed by the
JSON encode into it. -/
def flushOps (s : Storage) (resultsFilePath dirPath : String) (dirExists : Bool) :
    List FsOp :=
  if s.results = [] then []
  else
    FsOp.readF resultsFilePath ::
      ((if dirExists then [] else [FsOp.mkdirAll dirPath]) ++
        [FsOp.createF resultsFilePath, FsOp.writeF resultsFilePath])

/-- Modelled from the spec: the spec's required write discipline for `flush` —
every flush that writes goes to a temporary file and reaches the results file
only through an atomic rename, never by creating (truncating) the results
file in place. Stated over the operation trace of the source's `flush`. -/
def SpecFlushViaTempRename (s : Storage) (resultsFilePath dirPath : String)
    (dirExists : Bool) : Prop :=
  s.results ≠ [] →
    (∃ tmp, tmp ≠ resultsFilePath ∧
        FsOp.renameF tmp resultsFilePath ∈ flushOps s resultsFilePath dirPath dirExists) ∧
      FsOp.createF resultsFilePath ∉ flushOps s resultsFilePath dirPath dirExists

/-- A run of `AddResult` calls over a starting store, recording for each call
whether it triggered the implicit flush. -/
def runAdds (st : Storage) (rs : List AnalysisResult) : Storage × List Bool :=
  rs.foldl
    (fun acc r =>
      let step := acc.1.AddResult r
      (step.1, acc.2 ++ [step.2]))
    (st, [])

/-- The 23 distinct results of the spec's 23-frame scenario. -/
def sampleResults : List AnalysisResult :=
  (List.range 23).map fun i => { frame := "frame_" ++ toString (i + 1), content := "c" }

end FileBackend

namespace Pipeline

/-- `maxWorkers` (internal/analyzer/analyzer.go line 19). -/
def maxWorkers : Nat := 4

/-- `filepath.Join(frameDirPath, work.FramePath)`. -/
def joinPath (dir name : String) : String := dir ++ "/" ++ name

/-- The `WorkItem`s the dispatcher goroutine enqueues (analyzer.go lines
109–118): the frames in list order, with 1-based ordinals and the total. -/
def mkWorkItems (frames : List String) : List WorkItem :=
  frames.enum.map fun p => { framePath := p.2, frameNum := p.1 + 1, total := frames.length }

/-- One worker-loop iteration (analyzer.go lines 89–104) for one work item.
The external model call `p.analyzeImage` is the oracle `analyze`, applied to
the resolved frame path; on failure the worker emits the tagged per-item
error and continues, on success it emits an `AnalysisResult`. -/
def workerStep (analyze : String → Except String String) (frameDirPath : String)
    (work : WorkItem) : Except String AnalysisResult :=
  match analyze (joinPath frameDirPath work.framePath) with
  | .error e =>
      .error ("frame " ++ toString work.frameNum ++ "/" ++ toString work.total ++
        " failed: " ++ e)
  | .ok analysis => .ok { frame := work.framePath, content := analysis }

/-- The multiset of outcomes the worker pool emits for an input frame list:
each enqueued work item is consumed by exactly one worker and yields exactly
one outcome on the results or the errors channel (both channels are buffered
to `len(frames)`, so no emission is dropped). Listed in frame order; the
channels themselves carry no order guarantee. -/
def processOutcomes (analyze : String → Except String String) (frameDirPath : String)
    (frames : List String) : List (Except String AnalysisResult) :=
  (mkWorkItems frames).map (workerStep analyze frameDirPath)

/-- The successful results among the outcomes, as drained by the collector
goroutine (analyzer.go lines 121–125). -/
def collectOk (outs : List (Except String AnalysisResult)) : List AnalysisResult :=
  outs.filterMap fun o => match o with | .ok r => some r | .error _ => none

/-- The per-item error messages among the outcomes, as drained from the
errors channel (analyzer.go lines 138–141). -/
def collectErr (outs : List (Except String AnalysisResult)) : List String :=
  outs.filterMap fun o => match o with | .ok _ => none | .error e => some e

/-- `processFrames` (analyzer.go lines 74–147), success path of the storage
writes. The collector goroutine (lines 121–125) drains results into the
store, but nothing synchronizes it with the final `p.storage.Flush()` on
line 133: after `wg.Wait()` closes the results channel, the main goroutine
flushes concurrently with the collector still draining the buffered channel.
Each `AddResult` and the `Flush` are atomic sections under the store's
mutex, so a schedule is the number `k` of successful results the collector
has already added when `Flush` acquires the lock; the remaining successes
are added after the flush, persisted only if they reach a batch boundary.
The per-item errors are then combined into the single aggregate error
returned to the caller. -/
def processFrames (analyze : String → Except String String) (frameDirPath : String)
    (frames : List String) (st : FileBackend.Storage) (k : Nat) :
    FileBackend.Storage × Except String Unit :=
  let outs := processOutcomes analyze frameDirPath frames
  let oks := collectOk outs
  let st1 := ((oks.take k).foldl (fun s r => (s.AddResult r).1) st).flush
  let st2 := (oks.drop k).foldl (fun s r => (s.AddResult r).1) st1
  let msgs := collectErr outs
  (st2,
    if msgs = [] then .ok ()
    else .error ("encountered errors during processing: " ++ String.intercalate "; " msgs))

end Pipeline

namespace Embeddings

/-- `Result` (internal/embeddings/embeddings.go): content echoed back, the
vector (Go's nil slice modelled as `[]`), and the error if any. Vector
components are modelled as rationals; equality of lists is bit-identity. -/
structure Result where
  content : String
  embedding : List Rat
  error : Option String
deriving DecidableEq, Repr

/-- `Work` (embeddings.go): a queued request. The per-request result channel
is modelled at the call sites. -/
structure Work where
  content : String
deriving DecidableEq, Repr

/-- The work-queue buffer size (embeddings.go line 42). -/
def queueCapacity : Nat := 100

/-- The `Service`'s submission-facing state: its bounded work queue. -/
structure Service where
  numWorkers : Nat
  workQueue : List Work
deriving DecidableEq, Repr

/-- `NewService` (embeddings.go lines 37–53): zero workers requested defaults
to 4; the work queue starts empty. -/
def Service.new (numWorkers : Nat) : Service :=
  { numWorkers := if numWorkers = 0 then 4 else numWorkers, workQueue := [] }

/-- The synthetic queue-full error message (embeddings.go line 106). -/
def queueFullMsg : String := "embedding queue is full, try again later"

/-- `GetEmbedding` (embeddings.go lines 92–112): a non-blocking select on the
work queue. With space, the work item is enqueued and the fresh single-slot
result channel is returned still empty (a worker will fill it later); at
capacity, nothing is enqueued and the channel already holds the synthetic
queue-full `Result`. Returns the new service state and the immediate contents
of the returned channel. -/
def Service.GetEmbedding (s : Service) (content : String) : Service × List Result :=
  if s.workQueue.length < queueCapacity then
    ({ s with workQueue := s.workQueue ++ [{ content := content }] }, [])
  else
    (s, [{ content := content, embedding := [], error := some queueFullMsg }])

/-- The state one embedding worker threads through its loop: the shared
content-keyed cache (`sync.Map`, as an association list with newest binding
first) and a counter of invocations of the underlying vector generation. -/
structure WorkerState where
  cache : List (String × List Rat)
  invocations : Nat
deriving DecidableEq, Repr

/-- `sync.Map.Load` over the association-list model. -/
def lookupCache (cache : List (String × List Rat)) (content : String) :
    Option (List Rat) :=
  match cache with
  | [] => none
  | (k, v) :: rest => if k = content then some v else lookupCache rest content

/-- One iteration of the worker loop (embeddings.go lines 61–86) on one work
item: on a cache hit, answer from the cache without invoking the generator;
on a miss, invoke the generator `gen` (counted), cache the vector on success,
and answer with the vector or the error. -/
def workerLoopStep (gen : String → Except String (List Rat)) (st : WorkerState)
    (content : String) : WorkerState × Result :=
  match lookupCache st.cache content with
  | some v => (st, { content := content, embedding := v, error := none })
  | none =>
    match gen content with
    | .ok emb =>
        ({ cache := (content, emb) :: st.cache, invocations := st.invocations + 1 },
         { content := content, embedding := emb, error := none })
    | .error e =>
        ({ st with invocations := st.invocations + 1 },
         { content := content, embedding := [], error := some e })

/-- The worker pool consuming a sequence of queued contents, state only. -/
def runWorker (gen : String → Except String (List Rat)) (st : WorkerState)
    (contents : List String) : WorkerState :=
  contents.foldl (fun s c => (workerLoopStep gen s c).1) st

end Embeddings

namespace PG

/-- A row of `frames` (schema in `InitSchema`): unique per
(video_id, frame_number). -/
structure FrameRow where
  id : Nat
  videoId : Nat
  frameNumber : Nat
  framePath : String
  timestamp : Nat
deriving DecidableEq, Repr

/-- A row of `analyses`: at most one per frame (UNIQUE(frame_id)); a NULL
embedding is `none`. -/
structure AnalysisRow where
  id : Nat
  frameId : Nat
  content : String
  embedding : Option (List Rat)
deriving DecidableEq, Repr

/-- The database state the Postgres backend reads and writes, with the serial
id counters. -/
structure DB where
  frames : List FrameRow
  analyses : List AnalysisRow
  nextFrameId : Nat
  nextAnalysisId : Nat
deriving DecidableEq, Repr

/-- `fmt.Sscanf(frameName, "frame_%04d.jpg", &frameNum)` on the
zero-padded four-digit names the extractor produces: accepts
`frame_` ++ four digits ++ `.jpg` and yields the decimal value. -/
def parseFrameNum (s : String) : Option Nat :=
  let cs := s.toList
  if cs.length = 14 ∧ cs.take 6 = "frame_".toList ∧
      ((cs.drop 6).take 4).all Char.isDigit ∧ cs.drop 10 = ".jpg".toList then
    some (((cs.drop 6).take 4).foldl (fun acc c => acc * 10 + (c.toNat - 48)) 0)
  else none

/-- The existing-frame lookup of `AddResult` (SELECT ... FROM frames WHERE
video_id = $1 AND frame_number = $2). -/
def findFrame (db : DB) (videoId frameNum : Nat) : Option FrameRow :=
  db.frames.find? fun f => f.videoId == videoId && f.frameNumber == frameNum

/-- The `has_embedding` subquery of `AddResult`: an `analyses` row for this
frame with a non-NULL embedding exists. -/
def hasEmbedding (db : DB) (frameId : Nat) : Bool :=
  db.analyses.any fun a => a.frameId == frameId && a.embedding.isSome

/-- The fallback vector `AddResult` substitutes when embedding generation
fails (the Go literal `[]float32{0.1, 0.2, 0.3, 0.4}`). -/
def fallbackEmbedding : List Rat := [1/10, 2/10, 3/10, 4/10]

/-- The `INSERT ... ON CONFLICT (frame_id) DO UPDATE` on `analyses`: update
the existing row's content and embedding if one exists for the frame,
otherwise insert a fresh row. -/
def upsertAnalysis (db : DB) (frameId : Nat) (content : String)
    (emb : Option (List Rat)) : DB :=
  if db.analyses.any (fun a => a.frameId == frameId) then
    { db with analyses := db.analyses.map fun a =>
        if a.frameId == frameId then { a with content := content, embedding := emb }
        else a }
  else
    { db with
      analyses := db.analyses ++
        [{ id := db.nextAnalysisId, frameId := frameId, content := content,
           embedding := emb }],
      nextAnalysisId := db.nextAnalysisId + 1 }

/-- What a call to the Postgres `AddResult` produced: the database afterward,
the returned value, and whether the call requested an embedding from the
embedding service at all. -/
structure AddResultOut where
  db : DB
  ret : Except String Unit
  embeddingRequested : Bool
deriving Repr

/-- The tail of `AddResult` from the embedding request on (part_001 lines
195–221): ask the embedding service for the content's vector (`embedOut` is
what the service's result channel delivers); on error substitute the fallback
vector; then upsert the `analyses` row and report success. -/
def finishAdd (db : DB) (frameId : Nat) (result : AnalysisResult)
    (embedOut : Except String (List Rat)) : AddResultOut :=
  let emb := match embedOut with
    | .error _ => fallbackEmbedding
    | .ok v => v
  { db := upsertAnalysis db frameId result.content (some emb),
    ret := .ok (), embeddingRequested := true }

/-- `PostgresStorage.AddResult` (part_001 lines 147–222), database success
path: parse the frame number from the file name; if the frame already exists
with a non-NULL embedding, return success touching nothing and without
consulting the embedding service; if it exists without one, proceed to the
embedding and upsert; otherwise insert the frame row first. -/
def AddResult (db : DB) (videoId : Nat) (result : AnalysisResult)
    (embedOut : Except String (List Rat)) : AddResultOut :=
  match parseFrameNum result.frame with
  | none =>
      { db := db, ret := .error ("invalid frame filename format: " ++ result.frame),
        embeddingRequested := false }
  | some frameNum =>
    match findFrame db videoId frameNum with
    | some f =>
        if hasEmbedding db f.id then
          { db := db, ret := .ok (), embeddingRequested := false }
        else finishAdd db f.id result embedOut
    | none =>
      let fr : FrameRow :=
        { id := db.nextFrameId, videoId := videoId, frameNumber := frameNum,
          framePath := result.frame, timestamp := frameNum * 15 }
      let db1 : DB :=
        { db with frames := db.frames ++ [fr], nextFrameId := db.nextFrameId + 1 }
      finishAdd db1 fr.id result embedOut

/-- The `analyses JOIN frames JOIN videos ... WHERE v.id = videoId` row set
both search queries range over: each analysis paired with its frame, kept
when the frame belongs to the video. -/
def candidateRows (db : DB) (videoId : Nat) : List (FrameRow × AnalysisRow) :=
  db.analyses.filterMap fun a =>
    (db.frames.find? fun f => f.id == a.frameId && f.videoId == videoId).map
      fun f => (f, a)

/-- `SearchSimilarFrames` (part_001 lines 283–323): obtain the query's
embedding from the embedding service (`embedOut` is the delivered result;
on error the search fails), then return up to `limit` candidate rows by
ascending pgvector distance — the external `<=>` operator is the oracle
`dist`, applied to the row's possibly-NULL embedding — reporting similarity
`1 - distance`. There is no emptiness check: an empty candidate set yields
an empty successful result. -/
def SearchSimilarFrames (db : DB) (videoId : Nat)
    (dist : Option (List Rat) → List Rat → Rat)
    (embedOut : Except String (List Rat)) (limit : Nat) :
    Except String (List FrameSearchResult) :=
  match embedOut with
  | .error e => .error ("failed to generate query embedding: " ++ e)
  | .ok q =>
    let sorted := (candidateRows db videoId).mergeSort fun x y =>
      decide (dist x.2.embedding q ≤ dist y.2.embedding q)
    .ok ((sorted.take limit).map fun fa =>
      { frameNumber := fa.1.frameNumber, framePath := fa.1.framePath,
        description := fa.2.content, similarity := 1 - dist fa.2.embedding q })

/-- Character-list comparison: does the first list start with the second? -/
def startsWithL : List Char → List Char → Bool
  | _, [] => true
  | [], _ => false
  | h :: hs, n :: ns => h == n && startsWithL hs ns

/-- Character-list containment of `needle` somewhere in the second list. -/
def containsSubL (needle : List Char) : List Char → Bool
  | [] => startsWithL [] needle
  | c :: t => startsWithL (c :: t) needle || containsSubL needle t

/-- Case-insensitive substring containment, the meaning of
`content ILIKE '%' || query || '%'` for wildcard-free queries. -/
def containsCI (content query : String) : Bool :=
  containsSubL (query.toList.map Char.toLower) (content.toList.map Char.toLower)

/-- The run-ingestion error message of `TextSearchFrames` (part_001 lines
337–340). -/
def noFramesMsg (videoName : String) : String :=
  "no frames found for video '" ++ videoName ++
    "'. Run:\n\nexport DB_ENABLED=true\n./visionanalyzer --video " ++ videoName ++
    "\n\nto process and embed this video first"

/-- The no-match error message of `TextSearchFrames` (part_001 line 376). -/
def noMatchMsg (query videoName : String) : String :=
  "no frames found containing '" ++ query ++ "' for video '" ++ videoName ++ "'"

/-- `TextSearchFrames` (part_001 lines 326–380): count the video's frame
rows and fail with the run-ingestion error when there are none; otherwise
match candidate rows by case-insensitive containment, order by frame number,
take `limit`, report similarity 0.5 — and fail with the distinct no-match
error when the match set is empty. -/
def TextSearchFrames (db : DB) (videoId : Nat) (videoName : String)
    (query : String) (limit : Nat) : Except String (List FrameSearchResult) :=
  if (db.frames.filter fun f => f.videoId == videoId).length = 0 then
    .error (noFramesMsg videoName)
  else
    let matched := (candidateRows db videoId).filter fun fa =>
      containsCI fa.2.content query
    let sorted := matched.mergeSort fun x y =>
      decide (x.1.frameNumber ≤ y.1.frameNumber)
    let results := (sorted.take limit).map fun fa =>
      { frameNumber := fa.1.frameNumber, framePath := fa.1.framePath,
        description := fa.2.content, similarity := (1 : Rat) / 2 }
    if results = [] then .error (noMatchMsg query videoName)
    else .ok results

end PG

/-! Theorems settling the claims, over the embedding above. -/

/-- A two-element store used as concrete input: one result persisted, one
buffered, on distinct frames. -/
def sampleStore : FileBackend.Storage :=
  { results := [{ frame := "frame_0002.jpg", content := "b" }],
    file := [{ frame := "frame_0001.jpg", content := "a" }] }

/-- C1: for the file backend, a successful `flush` leaves exactly the existing
persisted collection concatenated with the in-memory buffer — D+B stored
results — and, when the frames of the persisted collection and the buffer are
pairwise distinct, the stored collection has no duplicate frame entries; the
buffer is left empty. -/
theorem flush_merges_existing_and_buffer (s : FileBackend.Storage)
    (hnd : ((s.file ++ s.results).map AnalysisResult.frame).Nodup) :
    s.flush.file = s.file ++ s.results ∧
    s.flush.file.length = s.file.length + s.results.length ∧
    (s.flush.file.map AnalysisResult.frame).Nodup ∧
    s.flush.results = [] := by
  have hfile : s.flush.file = s.file ++ s.results := by
    unfold FileBackend.Storage.flush
    by_cases h : s.results = [] <;> simp [h]
  have hres : s.flush.results = [] := by
    unfold FileBackend.Storage.flush
    by_cases h : s.results = [] <;> simp [h]
  refine ⟨hfile, ?_, ?_, hres⟩
  · rw [hfile]; simp
  · rw [hfile]; exact hnd

/-- Witness for C1 at a concrete store with one persisted and one buffered
result on distinct frames. -/
theorem flush_merges_existing_and_buffer_witness :
    ((sampleStore.file ++ sampleStore.results).map AnalysisResult.frame).Nodup ∧
      (sampleStore.flush.file = sampleStore.file ++ sampleStore.results ∧
        sampleStore.flush.file.length =
          sampleStore.file.length + sampleStore.results.length ∧
        (sampleStore.flush.file.map AnalysisResult.frame).Nodup ∧
        sampleStore.flush.results = []) :=
  ⟨by decide, flush_merges_existing_and_buffer sampleStore (by decide)⟩

/-- C2 counterexample: at a store holding one buffered result, the operation
trace of `flush` creates the results file in place and performs no rename, so
the spec's temp-file-plus-atomic-rename discipline fails on the code. -/
theorem specFlushViaTempRename_fails :
    ¬ FileBackend.SpecFlushViaTempRename sampleStore "analysis_results.json"
        "out/video" true := by
  intro h
  obtain ⟨⟨tmp, htmp, hmem⟩, hnc⟩ := h (by simp [sampleStore])
  simp [FileBackend.flushOps, sampleStore] at hmem

/-- C2 amended: every flush with a nonempty buffer writes by creating
(truncating) the results file in place — its trace contains `os.Create` on
the results file itself and no rename operation at all. -/
theorem flush_creates_results_file_in_place (s : FileBackend.Storage)
    (p d : String) (b : Bool) (h : s.results ≠ []) :
    FileBackend.FsOp.createF p ∈ FileBackend.flushOps s p d b ∧
    ∀ src dst, FileBackend.FsOp.renameF src dst ∉ FileBackend.flushOps s p d b := by
  unfold FileBackend.flushOps
  simp only [if_neg h]
  constructor
  · cases b <;> simp
  · intro src dst
    cases b <;> simp

/-- Witness for the amended C2 at the concrete store. -/
theorem flush_creates_results_file_in_place_witness :
    sampleStore.results ≠ [] ∧
      (FileBackend.FsOp.createF "analysis_results.json" ∈
          FileBackend.flushOps sampleStore "analysis_results.json" "out/video" true ∧
        ∀ src dst, FileBackend.FsOp.renameF src dst ∉
          FileBackend.flushOps sampleStore "analysis_results.json" "out/video" true) :=
  ⟨by decide, flush_creates_results_file_in_place sampleStore
    "analysis_results.json" "out/video" true (by decide)⟩

/-- C5: for every nonempty input frame list, the worker pool emits exactly
one outcome per frame — `N` outcomes in all — and the outcome for the `i`-th
frame is either one `AnalysisResult` carrying that frame, or one per-item
error tagged `frame i/total failed: <cause>`; a failing frame contributes its
error and nothing else, never aborting the rest. -/
theorem pool_emits_one_outcome_per_frame
    (analyze : String → Except String String) (dir : String)
    (frames : List String) (hne : frames ≠ []) :
    (Pipeline.processOutcomes analyze dir frames).length = frames.length ∧
    ∀ (i : Nat) (f : String), frames[i]? = some f →
      (∃ content, (Pipeline.processOutcomes analyze dir frames)[i]? =
        some (Except.ok { frame := f, content := content })) ∨
      (∃ cause, (Pipeline.processOutcomes analyze dir frames)[i]? =
        some (Except.error ("frame " ++ toString (i + 1) ++ "/" ++
          toString frames.length ++ " failed: " ++ cause))) := by
  constructor
  · simp [Pipeline.processOutcomes, Pipeline.mkWorkItems]
  · intro i f hf
    have hout : (Pipeline.processOutcomes analyze dir frames)[i]? =
        some (Pipeline.workerStep analyze dir
          { framePath := f, frameNum := i + 1, total := frames.length }) := by
      simp [Pipeline.processOutcomes, Pipeline.mkWorkItems,
        List.getElem?_enum, hf]
    rcases hgen : analyze (Pipeline.joinPath dir f) with e | a
    · right
      refine ⟨e, ?_⟩
      rw [hout]
      simp [Pipeline.workerStep, hgen]
    · left
      refine ⟨a, ?_⟩
      rw [hout]
      simp [Pipeline.workerStep, hgen]

/-- A concrete model oracle: fails on frame "b", succeeds elsewhere. -/
def sampleAnalyze : String → Except String String :=
  fun p => if p = "d/b" then .error "boom" else .ok ("desc:" ++ p)

/-- Witness for C5 on two frames, one of which fails under the oracle. -/
theorem pool_emits_one_outcome_per_frame_witness :
    (["a", "b"] : List String) ≠ [] ∧
      ((Pipeline.processOutcomes sampleAnalyze "d" ["a", "b"]).length =
          (["a", "b"] : List String).length ∧
        ∀ (i : Nat) (f : String), (["a", "b"] : List String)[i]? = some f →
          (∃ content, (Pipeline.processOutcomes sampleAnalyze "d" ["a", "b"])[i]? =
            some (Except.ok { frame := f, content := content })) ∨
          (∃ cause, (Pipeline.processOutcomes sampleAnalyze "d" ["a", "b"])[i]? =
            some (Except.error ("frame " ++ toString (i + 1) ++ "/" ++
              toString (["a", "b"] : List String).length ++ " failed: " ++
                cause)))) :=
  ⟨by decide, pool_emits_one_outcome_per_frame sampleAnalyze "d" ["a", "b"]
    (by decide)⟩

/-- C4: demonstration of the missing synchronization at a failing input. On
one frame whose model call succeeds, under the schedule in which the final
flush acquires the store's mutex before the collector's `AddResult`
(`k = 0`, realizable because analyzer.go never awaits the collector
goroutine), `processFrames` returns success with the produced result still
unpersisted in the in-memory buffer and nothing in the results file; under
the collector-first schedule (`k = 1`) the same input persists it, as the
claim demands for every run. -/
theorem processFrames_unsynchronized_collector_loses_tail :
    (Pipeline.processFrames sampleAnalyze "d" ["a"] ⟨[], []⟩ 0).2 = .ok () ∧
    (Pipeline.processFrames sampleAnalyze "d" ["a"] ⟨[], []⟩ 0).1.file = [] ∧
    (Pipeline.processFrames sampleAnalyze "d" ["a"] ⟨[], []⟩ 0).1.results =
      [{ frame := "a", content := "desc:d/a" }] ∧
    (Pipeline.processFrames sampleAnalyze "d" ["a"] ⟨[], []⟩ 1).1.file =
      [{ frame := "a", content := "desc:d/a" }] ∧
    (Pipeline.processFrames sampleAnalyze "d" ["a"] ⟨[], []⟩ 1).1.results = [] :=
  ⟨rfl, by decide, by decide, by decide, by decide⟩

/-- C8: `AddResult` triggers its implicit flush exactly when the buffer
reaches `batchSize` = 10, and on the 23-result scenario the implicit flushes
happen exactly at the 10th and 20th add, leaving 3 buffered results whose
final explicit flush brings the persisted file to exactly 23 entries. -/
theorem addResult_implicit_flush_at_batchSize (s : FileBackend.Storage)
    (r : AnalysisResult) (h : s.results.length < FileBackend.batchSize) :
    ((s.AddResult r).2 = true ↔ s.results.length + 1 = FileBackend.batchSize) ∧
    (FileBackend.runAdds ⟨[], []⟩ FileBackend.sampleResults).2 =
      (List.range 23).map (fun i => decide (i + 1 = 10 ∨ i + 1 = 20)) ∧
    (FileBackend.runAdds ⟨[], []⟩ FileBackend.sampleResults).1.results.length = 3 ∧
    ((FileBackend.runAdds ⟨[], []⟩ FileBackend.sampleResults).1.flush).file.length
      = 23 := by
  refine ⟨?_, by decide, by decide, by decide⟩
  unfold FileBackend.Storage.AddResult
  by_cases hc : FileBackend.batchSize ≤ (s.results ++ [r]).length
  · simp only [if_pos hc]
    simp at hc ⊢
    omega
  · simp only [if_neg hc]
    simp at hc ⊢
    omega

/-- Witness for C8 at the empty store. -/
theorem addResult_implicit_flush_at_batchSize_witness :
    (FileBackend.Storage.mk [] []).results.length < FileBackend.batchSize ∧
      ((((FileBackend.Storage.mk [] []).AddResult
            { frame := "frame_0001.jpg", content := "a" }).2 = true ↔
          (FileBackend.Storage.mk [] []).results.length + 1 = FileBackend.batchSize) ∧
        (FileBackend.runAdds ⟨[], []⟩ FileBackend.sampleResults).2 =
          (List.range 23).map (fun i => decide (i + 1 = 10 ∨ i + 1 = 20)) ∧
        (FileBackend.runAdds ⟨[], []⟩ FileBackend.sampleResults).1.results.length = 3 ∧
        ((FileBackend.runAdds ⟨[], []⟩
            FileBackend.sampleResults).1.flush).file.length = 23) :=
  ⟨by decide, addResult_implicit_flush_at_batchSize (FileBackend.Storage.mk [] [])
    { frame := "frame_0001.jpg", content := "a" } (by decide)⟩

/-- C6: `GetEmbedding` never blocks the caller — at capacity it enqueues
nothing and the returned single-slot channel already holds the `Result`
carrying the synthetic queue-full error; with space it enqueues the work item
and returns at once with the channel still empty. -/
theorem GetEmbedding_nonblocking (s : Embeddings.Service) (content : String) :
    (Embeddings.queueCapacity ≤ s.workQueue.length →
      (s.GetEmbedding content).1 = s ∧
      (s.GetEmbedding content).2 =
        [{ content := content, embedding := [],
           error := some Embeddings.queueFullMsg }]) ∧
    (s.workQueue.length < Embeddings.queueCapacity →
      (s.GetEmbedding content).1 =
        { s with workQueue := s.workQueue ++ [{ content := content }] } ∧
      (s.GetEmbedding content).2 = []) := by
  constructor
  · intro h
    have hnot : ¬ s.workQueue.length < Embeddings.queueCapacity := by omega
    simp [Embeddings.Service.GetEmbedding, hnot]
  · intro h
    simp [Embeddings.Service.GetEmbedding, h]

/-- A cache binding survives one worker iteration on any content: a hit
leaves the cache untouched, and a miss only adds a binding for a content
that was absent. -/
theorem lookupCache_preserved (gen : String → Except String (List Rat))
    (st : Embeddings.WorkerState) (c : String) (v : List Rat)
    (h : Embeddings.lookupCache st.cache c = some v) (d : String) :
    Embeddings.lookupCache ((Embeddings.workerLoopStep gen st d).1).cache c =
      some v := by
  unfold Embeddings.workerLoopStep
  cases hl : Embeddings.lookupCache st.cache d with
  | some w => simpa using h
  | none =>
    cases hg : gen d with
    | error e => simpa using h
    | ok emb =>
      simp only []
      unfold Embeddings.lookupCache
      by_cases hdc : d = c
      · rw [hdc] at hl
        rw [hl] at h
        cases h
      · simp [hdc, h]

/-- A cache binding survives a whole sequence of worker iterations. -/
theorem lookupCache_preserved_run (gen : String → Except String (List Rat))
    (others : List String) (st : Embeddings.WorkerState) (c : String)
    (v : List Rat) (h : Embeddings.lookupCache st.cache c = some v) :
    Embeddings.lookupCache ((Embeddings.runWorker gen st others)).cache c =
      some v := by
  induction others generalizing st with
  | nil => exact h
  | cons d rest ih =>
    exact ih _ (lookupCache_preserved gen st c v h d)

/-- A cache hit answers from the cache and leaves the worker state — cache
and invocation counter alike — unchanged. -/
theorem workerLoopStep_hit (gen : String → Except String (List Rat))
    (st : Embeddings.WorkerState) (c : String) (v : List Rat)
    (h : Embeddings.lookupCache st.cache c = some v) :
    Embeddings.workerLoopStep gen st c =
      (st, { content := c, embedding := v, error := none }) := by
  unfold Embeddings.workerLoopStep
  rw [h]

/-- C7: once a request for content `c` has completed successfully and
populated the cache, any subsequent request for `c` — regardless of the
other contents processed in between — is answered from the cache with the
bit-identical vector, without re-invoking the underlying vector generation
and without touching the worker state at all. -/
theorem cached_embedding_hit_no_reinvocation
    (gen : String → Except String (List Rat)) (st : Embeddings.WorkerState)
    (c : String) (v : List Rat) (others : List String)
    (hmiss : Embeddings.lookupCache st.cache c = none)
    (hgen : gen c = .ok v) :
    (Embeddings.workerLoopStep gen st c).2 =
      { content := c, embedding := v, error := none } ∧
    Embeddings.workerLoopStep gen
        (Embeddings.runWorker gen (Embeddings.workerLoopStep gen st c).1 others)
        c =
      (Embeddings.runWorker gen (Embeddings.workerLoopStep gen st c).1 others,
       { content := c, embedding := v, error := none }) := by
  have hres : Embeddings.workerLoopStep gen st c =
      ({ cache := (c, v) :: st.cache, invocations := st.invocations + 1 },
       { content := c, embedding := v, error := none }) := by
    unfold Embeddings.workerLoopStep
    rw [hmiss, hgen]
  have hlook1 :
      Embeddings.lookupCache ((Embeddings.workerLoopStep gen st c).1).cache c =
        some v := by
    rw [hres]
    unfold Embeddings.lookupCache
    simp
  have hlook2 := lookupCache_preserved_run gen others _ c v hlook1
  exact ⟨by rw [hres], workerLoopStep_hit gen _ c v hlook2⟩

/-- A concrete embedding generator, answering `[5]` for every content. -/
def sampleGen : String → Except String (List Rat) := fun _ => .ok [5]

/-- Witness for C7: a first request for "x", an interleaved request for "y",
then a second request for "x". -/
theorem cached_embedding_hit_no_reinvocation_witness :
    (Embeddings.lookupCache (Embeddings.WorkerState.mk [] 0).cache "x" = none ∧
      sampleGen "x" = .ok [(5 : Rat)]) ∧
      ((Embeddings.workerLoopStep sampleGen
          (Embeddings.WorkerState.mk [] 0) "x").2 =
        { content := "x", embedding := [(5 : Rat)], error := none } ∧
      Embeddings.workerLoopStep sampleGen
          (Embeddings.runWorker sampleGen
            (Embeddings.workerLoopStep sampleGen
              (Embeddings.WorkerState.mk [] 0) "x").1 ["y"]) "x" =
        (Embeddings.runWorker sampleGen
          (Embeddings.workerLoopStep sampleGen
            (Embeddings.WorkerState.mk [] 0) "x").1 ["y"],
         { content := "x", embedding := [(5 : Rat)], error := none })) :=
  ⟨⟨rfl, rfl⟩,
    cached_embedding_hit_no_reinvocation sampleGen
      (Embeddings.WorkerState.mk [] 0) "x" [(5 : Rat)] ["y"] rfl rfl⟩

/-- A concrete database: video 7 has frame 1 analyzed with an embedding. -/
def sampleDB : PG.DB :=
  { frames := [{ id := 1, videoId := 7, frameNumber := 1,
                 framePath := "frame_0001.jpg", timestamp := 15 }],
    analyses := [{ id := 1, frameId := 1, content := "old",
                   embedding := some PG.fallbackEmbedding }],
    nextFrameId := 2, nextAnalysisId := 2 }

/-- C9: the relational `AddResult` on a frame that already has an analysis
with a non-NULL embedding is a silent success: the database is returned
unchanged — no frame or analysis row inserted or updated — and the embedding
service is never consulted. -/
theorem AddResult_skips_frame_with_embedding (db : PG.DB) (videoId : Nat)
    (r : AnalysisResult) (n : Nat) (f : PG.FrameRow)
    (embedOut : Except String (List Rat))
    (hp : PG.parseFrameNum r.frame = some n)
    (hf : PG.findFrame db videoId n = some f)
    (he : PG.hasEmbedding db f.id = true) :
    PG.AddResult db videoId r embedOut =
      { db := db, ret := .ok (), embeddingRequested := false } := by
  unfold PG.AddResult
  rw [hp]
  simp [hf, he]

/-- Witness for C9 on the concrete database, re-adding frame 1. -/
theorem AddResult_skips_frame_with_embedding_witness :
    (PG.parseFrameNum "frame_0001.jpg" = some 1 ∧
      PG.findFrame sampleDB 7 1 = some
        { id := 1, videoId := 7, frameNumber := 1,
          framePath := "frame_0001.jpg", timestamp := 15 } ∧
      PG.hasEmbedding sampleDB 1 = true) ∧
      PG.AddResult sampleDB 7 { frame := "frame_0001.jpg", content := "new" }
          (.ok [(9 : Rat)]) =
        { db := sampleDB, ret := .ok (), embeddingRequested := false } :=
  ⟨⟨by decide, by decide, by decide⟩,
    AddResult_skips_frame_with_embedding sampleDB 7
      { frame := "frame_0001.jpg", content := "new" } 1
      { id := 1, videoId := 7, frameNumber := 1,
        framePath := "frame_0001.jpg", timestamp := 15 }
      (.ok [(9 : Rat)]) (by decide) (by decide) (by decide)⟩

/-- The analyses upsert always leaves a row for the target frame carrying
exactly the written content and embedding. -/
theorem upsertAnalysis_mem (db : PG.DB) (frameId : Nat) (content : String)
    (emb : Option (List Rat)) :
    ∃ a ∈ (PG.upsertAnalysis db frameId content emb).analyses,
      a.frameId = frameId ∧ a.content = content ∧ a.embedding = emb := by
  unfold PG.upsertAnalysis
  by_cases h : db.analyses.any (fun a => a.frameId == frameId)
  · simp only [if_pos h]
    obtain ⟨a, ha, hfId⟩ := List.any_eq_true.mp h
    refine ⟨{ a with content := content, embedding := emb }, ?_, ?_, rfl, rfl⟩
    · have := List.mem_map_of_mem
        (fun a => if a.frameId == frameId then
          { a with content := content, embedding := emb } else a) ha
      simpa [hfId] using this
    · simpa using hfId
  · simp only [if_neg h]
    refine ⟨PG.AnalysisRow.mk db.nextAnalysisId frameId content emb, ?_, rfl, rfl, rfl⟩
    simp

/-- C10: when embedding generation fails during a relational `AddResult` (on
a frame without a stored embedding), the error is not returned: the call
succeeds, the stored analysis row carries the fixed fallback vector
{0.1, 0.2, 0.3, 0.4}, and the whole outcome is identical to that of a call
whose embedding computation genuinely produced the fallback vector. -/
theorem AddResult_embedding_failure_falls_back (db : PG.DB) (videoId : Nat)
    (r : AnalysisResult) (n : Nat) (e : String)
    (hp : PG.parseFrameNum r.frame = some n)
    (hne : ∀ f, PG.findFrame db videoId n = some f →
      PG.hasEmbedding db f.id = false) :
    (PG.AddResult db videoId r (.error e)).ret = .ok () ∧
    PG.AddResult db videoId r (.error e) =
      PG.AddResult db videoId r (.ok PG.fallbackEmbedding) ∧
    ∃ a ∈ (PG.AddResult db videoId r (.error e)).db.analyses,
      a.content = r.content ∧ a.embedding = some PG.fallbackEmbedding := by
  have hstep : ∀ out : Except String (List Rat),
      PG.AddResult db videoId r out =
        match PG.findFrame db videoId n with
        | some f => PG.finishAdd db f.id r out
        | none =>
          PG.finishAdd
            (PG.DB.mk
              (db.frames ++ [PG.FrameRow.mk db.nextFrameId videoId n r.frame (n * 15)])
              db.analyses (db.nextFrameId + 1) db.nextAnalysisId)
            db.nextFrameId r out := by
    intro out
    cases hf : PG.findFrame db videoId n with
    | some f =>
      unfold PG.AddResult
      rw [hp]
      simp [hf, hne f hf]
    | none =>
      unfold PG.AddResult
      rw [hp]
      simp [hf]
  rw [hstep (.error e), hstep (.ok PG.fallbackEmbedding)]
  cases hf : PG.findFrame db videoId n with
  | some f =>
    refine ⟨by simp [PG.finishAdd], by simp [PG.finishAdd], ?_⟩
    simp only [PG.finishAdd]
    obtain ⟨a, ha, _, hco, hemb⟩ := upsertAnalysis_mem db f.id r.content
      (some PG.fallbackEmbedding)
    exact ⟨a, ha, hco, hemb⟩
  | none =>
    refine ⟨by simp [PG.finishAdd], by simp [PG.finishAdd], ?_⟩
    simp only [PG.finishAdd]
    obtain ⟨a, ha, _, hco, hemb⟩ := upsertAnalysis_mem _ db.nextFrameId r.content
      (some PG.fallbackEmbedding)
    exact ⟨a, ha, hco, hemb⟩

/-- A concrete database: video 7 has frame 1 analyzed but with a NULL
embedding. -/
def sampleDBNoEmb : PG.DB :=
  { frames := [{ id := 1, videoId := 7, frameNumber := 1,
                 framePath := "frame_0001.jpg", timestamp := 15 }],
    analyses := [{ id := 1, frameId := 1, content := "old", embedding := none }],
    nextFrameId := 2, nextAnalysisId := 2 }

/-- Witness for C10 on the concrete database, with a failing embedding. -/
theorem AddResult_embedding_failure_falls_back_witness :
    (PG.parseFrameNum "frame_0001.jpg" = some 1 ∧
      (∀ f, PG.findFrame sampleDBNoEmb 7 1 = some f →
        PG.hasEmbedding sampleDBNoEmb f.id = false)) ∧
      ((PG.AddResult sampleDBNoEmb 7
          { frame := "frame_0001.jpg", content := "new" } (.error "down")).ret =
        .ok () ∧
      PG.AddResult sampleDBNoEmb 7
          { frame := "frame_0001.jpg", content := "new" } (.error "down") =
        PG.AddResult sampleDBNoEmb 7
          { frame := "frame_0001.jpg", content := "new" }
          (.ok PG.fallbackEmbedding) ∧
      ∃ a ∈ (PG.AddResult sampleDBNoEmb 7
          { frame := "frame_0001.jpg", content := "new" }
          (.error "down")).db.analyses,
        a.content = "new" ∧ a.embedding = some PG.fallbackEmbedding) :=
  ⟨⟨by decide, by decide⟩,
    AddResult_embedding_failure_falls_back sampleDBNoEmb 7
      { frame := "frame_0001.jpg", content := "new" } 1 "down"
      (by decide) (by decide)⟩

/-- C3 counterexample: similarity search over a video with zero frame rows
returns the empty list with no error — not the instructive run-ingestion
error the claim asserts. -/
theorem similarity_search_empty_returns_ok_nil :
    PG.SearchSimilarFrames
        { frames := [], analyses := [], nextFrameId := 1, nextAnalysisId := 1 }
        1 (fun _ _ => 0) (.ok [1]) 5 = .ok [] := by
  simp [PG.SearchSimilarFrames, PG.candidateRows]

/-- With no frame rows for the video, the search queries have no candidate
rows to return. -/
theorem candidateRows_nil (db : PG.DB) (videoId : Nat)
    (h : db.frames.filter (fun f => f.videoId == videoId) = []) :
    PG.candidateRows db videoId = [] := by
  unfold PG.candidateRows
  rw [List.filterMap_eq_nil_iff]
  intro a _
  have hfind : db.frames.find?
      (fun f => f.id == a.frameId && f.videoId == videoId) = none := by
    rw [List.find?_eq_none]
    intro f hf
    have hv := List.filter_eq_nil_iff.mp h f hf
    simp only [Bool.and_eq_true, decide_eq_true_eq]
    intro ⟨_, hveq⟩
    exact hv (by simp [hveq])
  rw [hfind]
  rfl

/-- C3 amended: the never-silently-empty guarantee belongs to substring
search alone — with zero frame rows it fails with the run-ingestion error,
and with existing frames but an empty case-insensitive match set it fails
with the distinct no-match error — while similarity search performs no such
check and returns a successful empty list over a video with zero frame
rows. -/
theorem search_error_reporting (db : PG.DB) (videoId : Nat)
    (videoName query : String) (dist : Option (List Rat) → List Rat → Rat)
    (q : List Rat) (limit : Nat) :
    (db.frames.filter (fun f => f.videoId == videoId) = [] →
      PG.SearchSimilarFrames db videoId dist (.ok q) limit = .ok []) ∧
    (db.frames.filter (fun f => f.videoId == videoId) = [] →
      PG.TextSearchFrames db videoId videoName query limit =
        .error (PG.noFramesMsg videoName)) ∧
    (db.frames.filter (fun f => f.videoId == videoId) ≠ [] →
      (∀ fa ∈ PG.candidateRows db videoId,
        PG.containsCI fa.2.content query = false) →
      PG.TextSearchFrames db videoId videoName query limit =
        .error (PG.noMatchMsg query videoName)) := by
  refine ⟨?_, ?_, ?_⟩
  · intro h
    simp [PG.SearchSimilarFrames, candidateRows_nil db videoId h]
  · intro h
    simp [PG.TextSearchFrames, h]
  · intro h hnomatch
    have hlen : ¬ (db.frames.filter (fun f => f.videoId == videoId)).length = 0 := by
      simpa [List.length_eq_zero] using h
    have hmatched : (PG.candidateRows db videoId).filter
        (fun fa => PG.containsCI fa.2.content query) = [] :=
      List.filter_eq_nil_iff.mpr (by simpa using hnomatch)
    simp [PG.TextSearchFrames, hlen, hmatched]

end Vision
